import Mathlib

/-!
Shallow embedding of the request dispatch and retry layer of the
smartsheet-api-101 client library, together with proofs of the
specification claims about it.

Embedded source:
- `smartsheet/core/toolkit.py` : `ensure_list_of_dicts`
- `smartsheet/core/api.py`     : `rate_limiter_passthru`, `ss_get`,
  `ss_post`, `ss_put`, `ss_post_upload`, `ss_put_upload`

Modelling conventions:
- JSON-compatible Python values are the inductive `PyVal`; Python `None`
  is `PyVal.pyNone`.
- A Python function that can raise an uncaught exception returns
  `Except String α`; `.error` is a raise, `.ok` a normal return.
- The network is an oracle: the dispatcher receives the sequence of
  values the per-verb helper functions return (one per loop iteration),
  and each transport primitive receives the HTTP response the `requests`
  library would produce for its single call.
- `time.sleep` and `random.random()` are modelled by recording the slept
  durations: the jitter source is a function `jitter : Nat -> Rat`
  giving the value `random.random()` yields on the i-th backoff, and a
  run trace records each duration `2 ^ attempts + jitter attempts`.
-/

namespace SmartsheetAPI

/-! ### Python value model -/

/-- JSON-compatible Python values (the payloads that flow through the
toolkit and transport layer). `pyNone` is Python `None`. -/
inductive PyVal where
  | pyNone : PyVal
  | int : Int → PyVal
  | str : String → PyVal
  | boolean : Bool → PyVal
  | dict : List (String × PyVal) → PyVal
  | list : List PyVal → PyVal

/-- Python `isinstance(v, dict)`. -/
def isDict : PyVal → Bool
  | .dict _ => true
  | _ => false

/-- Does `v` evaluate `isinstance(v, list) and isinstance(v[0], dict)` to
`True` (no `IndexError`, nonempty, mapping head)? Used only to state which
inputs fall through to the failure arm of `ensure_list_of_dicts`. -/
def headIsDict : PyVal → Bool
  | .list (x :: _) => isDict x
  | _ => false

/-- The `except (IndexError, TypeError)` arm of `ensure_list_of_dicts`:
wrap a dict in a list, otherwise raise
`ValueError('The variable is neither a dict nor a list containing dicts')`. -/
def elodExceptArm (v : PyVal) : Except String PyVal :=
  match v with
  | .dict entries => .ok (.list [.dict entries])
  | _ => .error "The variable is neither a dict nor a list containing dicts"

/-- `toolkit.ensure_list_of_dicts`: the `try` arm returns the input
unchanged when it is a list whose first element is a dict; an empty list
raises `IndexError` at `list_of_dicts[0]` and a failed check raises
`TypeError`, both caught and sent to the except arm. -/
def ensure_list_of_dicts (v : PyVal) : Except String PyVal :=
  match v with
  | .list (x :: xs) =>
      if isDict x then .ok (.list (x :: xs))
      else elodExceptArm (.list (x :: xs))
  | other => elodExceptArm other

/-! ### Transport primitives -/

/-- The object `requests.get` / `requests.post` / `requests.put` returns:
an HTTP status code and the JSON value `.json()` parses to. -/
structure HttpResponse where
  status : Nat
  body : PyVal

/-- `response.raise_for_status()` raises `requests.exceptions.HTTPError`
exactly for status codes in [400, 600). -/
def raiseForStatus (s : Nat) : Bool :=
  decide (400 ≤ s) && decide (s < 600)

/-- A value a transport primitive returns to its caller: Python `None`
(an error was caught), a JSON value, or the full response object. -/
inductive SsRet where
  | pyNone : SsRet
  | json : PyVal → SsRet
  | obj : HttpResponse → SsRet

/-- Python `dict.get(key)`: the stored value, or `None` when absent. -/
def dict_get (entries : List (String × PyVal)) (key : String) : PyVal :=
  match entries.find? (fun p => p.1 == key) with
  | some p => p.2
  | none => .pyNone

/-- `api.ss_get`, as a function of the single HTTP response the network
produces for its one call. 4xx/5xx raises `HTTPError`, which the
function catches, returning `None`. Otherwise: with `return_all` false
the parsed body is coerced by `ensure_list_of_dicts` (whose `ValueError`
propagates uncaught); with `return_all` true the full response object is
returned. -/
def ss_get (netResp : HttpResponse) (return_all : Bool) : Except String SsRet :=
  if raiseForStatus netResp.status then
    .ok .pyNone
  else if !return_all then
    (ensure_list_of_dicts netResp.body).map SsRet.json
  else
    .ok (.obj netResp)

/-- `api.ss_post`: 4xx/5xx is caught, returning `None`; otherwise
`response.json() if return_all else response.json().get('data')`.
Calling `.get` on a non-dict body raises `AttributeError` (uncaught). -/
def ss_post (netResp : HttpResponse) (return_all : Bool) : Except String SsRet :=
  if raiseForStatus netResp.status then
    .ok .pyNone
  else if return_all then
    .ok (.json netResp.body)
  else
    match netResp.body with
    | .dict entries => .ok (.json (dict_get entries "data"))
    | _ => .error "AttributeError: no attribute get"

/-- `api.ss_put`: identical result shape to `ss_post` (only the HTTP verb
of the single network call differs). -/
def ss_put (netResp : HttpResponse) (return_all : Bool) : Except String SsRet :=
  if raiseForStatus netResp.status then
    .ok .pyNone
  else if return_all then
    .ok (.json netResp.body)
  else
    match netResp.body with
    | .dict entries => .ok (.json (dict_get entries "data"))
    | _ => .error "AttributeError: no attribute get"

/-- `api.ss_post_upload`, as a function of the local filesystem (does the
path exist?) and of the HTTP response the network would produce. Returns
the transport result paired with the number of network calls performed.
`open` on a missing path raises `FileNotFoundError`, re-raised as
`FileNotFoundError(f'File not found: {filepath}')` before any network
call; a caught `RequestException` (which `HTTPError` subclasses) makes
the function fall through, returning `None`. -/
def ss_post_upload (fileExists : String → Bool) (filepath : String)
    (netResp : HttpResponse) : Except String SsRet × Nat :=
  if fileExists filepath then
    if raiseForStatus netResp.status then
      (.ok .pyNone, 1)
    else
      (.ok (.json netResp.body), 1)
  else
    (.error ("File not found: " ++ filepath), 0)

/-- `api.ss_put_upload`: same control flow as `ss_post_upload` (only the
HTTP verb and multipart framing of the single network call differ). -/
def ss_put_upload (fileExists : String → Bool) (filepath : String)
    (netResp : HttpResponse) : Except String SsRet × Nat :=
  if fileExists filepath then
    if raiseForStatus netResp.status then
      (.ok .pyNone, 1)
    else
      (.ok (.json netResp.body), 1)
  else
    (.error ("File not found: " ++ filepath), 0)

/-! ### Dispatcher with retry -/

/-- What the dispatcher sees of one helper-function return value: an
optional status code (`hasattr(response, 'status_code')`) and an opaque
payload identifying the response. -/
structure Response where
  status : Option Nat
  body : Nat
deriving Repr, DecidableEq

/-- `response.status_code if hasattr(response, 'status_code') else 200`. -/
def effectiveCode (r : Response) : Nat :=
  r.status.getD 200

/-- Trace of one dispatcher run: the Python return value (`none` models
returning `None`), the recorded `time.sleep` durations in order, and the
number of helper (transport) calls performed. -/
structure RunTrace where
  result : Option Response
  sleeps : List ℚ
  calls : Nat
deriving Repr, DecidableEq

/-- `max_attempts = 5` in `rate_limiter_passthru`. -/
def max_attempts : Nat := 5

/-- The `while code == 429 and attempts < max_attempts` loop of
`rate_limiter_passthru`. `fuel` is `max_attempts - attempts`; the
iteration with counter value `attempts` performs the `attempts`-th
transport call (`oracle attempts`), and on a 429 sleeps
`2 ** attempts + random()` before re-entering the loop. A `None`
response returns `None`; a non-200/non-429 code returns `None`; a 200
returns the response. -/
def rateLoop (oracle : Nat → Option Response) (jitter : Nat → ℚ) :
    Nat → Nat → RunTrace
  | 0, _ => ⟨none, [], 0⟩
  | fuel + 1, attempts =>
    match oracle attempts with
    | none => ⟨none, [], 1⟩
    | some resp =>
      if effectiveCode resp = 429 then
        let t := rateLoop oracle jitter fuel (attempts + 1)
        ⟨t.result, ((2 : ℚ) ^ attempts + jitter attempts) :: t.sleeps, t.calls + 1⟩
      else if effectiveCode resp ≠ 200 then ⟨none, [], 1⟩
      else ⟨some resp, [], 1⟩

/-- The tuple `('get', 'delete', 'put', 'post')` checked by
`rate_limiter_passthru`. -/
def valid_verbs : List String := ["get", "delete", "put", "post"]

/-- `api.rate_limiter_passthru`. The verb is lowercased; an invalid verb
raises `ValueError` before any transport call; otherwise the retry loop
runs with `code = 429`, `attempts = 0`, `max_attempts = 5`, calling the
helper matching the lowercased verb each iteration (`oracle r` is that
helper's return-value sequence). Falling out of the loop returns `None`. -/
def rate_limiter_passthru (request : String)
    (oracle : String → Nat → Option Response) (jitter : Nat → ℚ) :
    Except String RunTrace :=
  let r := request.toLower
  if r ∈ valid_verbs then
    .ok (rateLoop (oracle r) jitter max_attempts 0)
  else
    .error (r ++ " is not a valid HTTP request type.")

/-- The value the Python caller of `rate_limiter_passthru` observes: the
raised `ValueError`, or the returned object (`none` is Python `None`). -/
def dispatch_return (request : String)
    (oracle : String → Nat → Option Response) (jitter : Nat → ℚ) :
    Except String (Option Response) :=
  (rate_limiter_passthru request oracle jitter).map RunTrace.result

/-! ### Concrete runs used by counterexamples and witnesses -/

/-- Zero jitter source (`random.random()` returning 0 each time). -/
def zeroJ : Nat → ℚ := fun _ => 0

/-- Transport always answering with status 404. -/
def o404 : String → Nat → Option Response := fun _ _ => some ⟨some 404, 0⟩

/-- Transport always answering with status 500. -/
def o500 : String → Nat → Option Response := fun _ _ => some ⟨some 500, 0⟩

/-- Transport always answering with status 429. -/
def o429 : String → Nat → Option Response := fun _ _ => some ⟨some 429, 0⟩

/-- Transport always answering with status 200. -/
def o200 : String → Nat → Option Response := fun _ _ => some ⟨some 200, 1⟩

/-- Transport answering with an object carrying no status attribute. -/
def oNoStatus : String → Nat → Option Response := fun _ _ => some ⟨none, 7⟩

/-- Transport answering 429 on the first two calls, then 200. -/
def oTwo429 : String → Nat → Option Response := fun _ n =>
  if n < 2 then some ⟨some 429, n⟩ else some ⟨some 200, 3⟩

/-- A successful HTTP response whose body is the envelope
`{"data": [{"id": 10}]}`. -/
def w8resp : HttpResponse :=
  ⟨200, .dict [("data", .list [.dict [("id", .int 10)]])]⟩

/-- A filesystem on which no path exists. -/
def emptyFs : String → Bool := fun _ => false

/-! ### Helper lemmas -/

/-- ASCII lowercasing of a character is idempotent. -/
theorem char_toLower_idem (c : Char) : c.toLower.toLower = c.toLower := by
  by_cases h : c.toNat ≥ 65 ∧ c.toNat ≤ 90
  · have hv : Nat.isValidChar (c.toNat + 32) := Or.inl (by omega)
    have h1 : c.toLower = Char.ofNat (c.toNat + 32) := by
      simp only [Char.toLower, if_pos h]
    have ht : (Char.ofNat (c.toNat + 32)).toNat = c.toNat + 32 := by
      rw [Char.ofNat, dif_pos hv]
      rfl
    rw [h1]
    simp only [Char.toLower, ht]
    rw [if_neg (by omega)]
  · have h1 : c.toLower = c := by simp only [Char.toLower, if_neg h]
    rw [h1, h1]

/-- `str.lower()` is idempotent. -/
theorem string_toLower_idem (s : String) : s.toLower.toLower = s.toLower := by
  simp only [String.toLower, String.map_eq]
  simp only [List.map_map]
  have hcomp : Char.toLower ∘ Char.toLower = Char.toLower :=
    funext char_toLower_idem
  rw [hcomp]

/-- The four accepted verb strings are fixed by lowercasing. -/
theorem toLower_of_mem_valid_verbs {v : String} (hv : v ∈ valid_verbs) :
    v.toLower = v := by
  simp only [valid_verbs, List.mem_cons, List.not_mem_nil, or_false] at hv
  rcases hv with h | h | h | h <;> subst h <;>
    simp only [String.toLower, String.map_eq] <;> decide

/-- For an accepted verb, the dispatcher runs the retry loop with
`code = 429`, `attempts = 0`, `max_attempts = 5` on that verb's helper. -/
theorem rate_limiter_passthru_valid (v : String) (hv : v ∈ valid_verbs)
    (oracle : String → Nat → Option Response) (jitter : Nat → ℚ) :
    rate_limiter_passthru v oracle jitter =
      .ok (rateLoop (oracle v) jitter 5 0) := by
  simp only [rate_limiter_passthru, toLower_of_mem_valid_verbs hv, if_pos hv]
  rfl

/-- Loop iteration on a response with effective status 200: return it,
no sleep, one transport call. -/
theorem rateLoop_200 (oracle : Nat → Option Response) (jitter : Nat → ℚ)
    (fuel attempts : Nat) (r : Response) (ho : oracle attempts = some r)
    (h200 : effectiveCode r = 200) :
    rateLoop oracle jitter (fuel + 1) attempts = ⟨some r, [], 1⟩ := by
  simp [rateLoop, ho, h200]

/-- Loop iteration on a response with effective status neither 429 nor
200: return `None`, no sleep, one transport call. -/
theorem rateLoop_other (oracle : Nat → Option Response) (jitter : Nat → ℚ)
    (fuel attempts : Nat) (r : Response) (ho : oracle attempts = some r)
    (h429 : effectiveCode r ≠ 429) (h200 : effectiveCode r ≠ 200) :
    rateLoop oracle jitter (fuel + 1) attempts = ⟨none, [], 1⟩ := by
  simp [rateLoop, ho, h429, h200]

/-- Loop iteration on a rate-limited response: sleep
`2 ** attempts + jitter`, increment the counter, re-enter the loop. -/
theorem rateLoop_429 (oracle : Nat → Option Response) (jitter : Nat → ℚ)
    (fuel attempts : Nat) (r : Response) (ho : oracle attempts = some r)
    (h : effectiveCode r = 429) :
    rateLoop oracle jitter (fuel + 1) attempts =
      ⟨(rateLoop oracle jitter fuel (attempts + 1)).result,
       ((2 : ℚ) ^ attempts + jitter attempts) ::
         (rateLoop oracle jitter fuel (attempts + 1)).sleeps,
       (rateLoop oracle jitter fuel (attempts + 1)).calls + 1⟩ := by
  simp [rateLoop, ho, h]

/-- Running the loop across `k` consecutive rate-limited responses
accumulates `k` sleeps (`2 ^ (a + i) + jitter (a + i)` for the i-th) and
`k` transport calls before whatever the loop does next. -/
theorem rateLoop_run429 (oracle : Nat → Option Response) (jitter : Nat → ℚ)
    (k fuel a : Nat) :
    k ≤ fuel →
    (∀ i, i < k → ∃ r, oracle (a + i) = some r ∧ effectiveCode r = 429) →
    rateLoop oracle jitter fuel a =
      ⟨(rateLoop oracle jitter (fuel - k) (a + k)).result,
       ((List.range k).map fun i => (2 : ℚ) ^ (a + i) + jitter (a + i))
         ++ (rateLoop oracle jitter (fuel - k) (a + k)).sleeps,
       (rateLoop oracle jitter (fuel - k) (a + k)).calls + k⟩ := by
  induction k with
  | zero =>
    intro _ _
    simp
  | succ k ih =>
    intro hk h429
    rw [ih (by omega) (fun i hi => h429 i (by omega))]
    obtain ⟨r, hr, hr429⟩ := h429 k (by omega)
    obtain ⟨m, hm⟩ : ∃ m, fuel - k = m + 1 := ⟨fuel - (k + 1), by omega⟩
    rw [hm, rateLoop_429 oracle jitter m (a + k) r hr hr429]
    have h1 : fuel - (k + 1) = m := by omega
    rw [h1]
    simp [List.range_succ, Nat.add_assoc]
    omega

/-! ### Claim theorems -/

/-- Claim C1: for every run of `rate_limiter_passthru` on a sequence of
transport responses whose reported status is 429 on the first `k`
attempts (`k < 5`) and 200 on attempt `k + 1`, the dispatcher returns
that final response as success after exactly `k` backoff sleeps, the
i-th sleep (0-based) lasting `2 ^ i + jitter i` seconds with each jitter
value in `[0, 1)`. -/
theorem claim_C1_backoff_then_success (v : String) (hv : v ∈ valid_verbs)
    (oracle : String → Nat → Option Response) (jitter : Nat → ℚ)
    (hj : ∀ i, 0 ≤ jitter i ∧ jitter i < 1)
    (k : Nat) (hk : k < 5) (rl : Nat → Response) (finalResp : Response)
    (hrl : ∀ i, i < k → oracle v i = some (rl i))
    (h429 : ∀ i, i < k → effectiveCode (rl i) = 429)
    (hfin : oracle v k = some finalResp) (h200 : effectiveCode finalResp = 200) :
    rate_limiter_passthru v oracle jitter =
      .ok ⟨some finalResp,
           (List.range k).map (fun i => (2 : ℚ) ^ i + jitter i), k + 1⟩ := by
  rw [rate_limiter_passthru_valid v hv oracle jitter]
  rw [rateLoop_run429 (oracle v) jitter k 5 0 (by omega)
    (fun i hi => ⟨rl i, by simpa using hrl i hi, h429 i hi⟩)]
  obtain ⟨m, hm⟩ : ∃ m, 5 - k = m + 1 := ⟨5 - (k + 1), by omega⟩
  rw [hm, rateLoop_200 (oracle v) jitter m (0 + k) finalResp
    (by simpa using hfin) h200]
  simp [Nat.add_comm]

/-- Witness for C1: a GET run that is rate limited twice, then succeeds
on the third attempt, with two recorded backoff sleeps. -/
theorem claim_C1_witness :
    "get" ∈ valid_verbs ∧
    (∀ i, (0 : ℚ) ≤ zeroJ i ∧ zeroJ i < 1) ∧
    2 < 5 ∧
    oTwo429 "get" 2 = some ⟨some 200, 3⟩ ∧
    rate_limiter_passthru "get" oTwo429 zeroJ =
      .ok ⟨some ⟨some 200, 3⟩,
           (List.range 2).map (fun i => (2 : ℚ) ^ i + zeroJ i), 3⟩ := by
  refine ⟨by decide, fun i => by norm_num [zeroJ], by decide, rfl, ?_⟩
  exact claim_C1_backoff_then_success "get" (by decide) oTwo429 zeroJ
    (fun i => by norm_num [zeroJ]) 2 (by decide)
    (fun i => ⟨some 429, i⟩) ⟨some 200, 3⟩
    (fun i hi => by simp [oTwo429, hi]) (fun i hi => rfl) rfl rfl

/-- Claim C2: when every transport response reports status 429, the
dispatcher performs exactly 5 transport calls and exactly 5 backoff
sleeps, never a 6th, and returns the failure value (`None`) after
exhausting the retry budget. -/
theorem claim_C2_retry_budget (v : String) (hv : v ∈ valid_verbs)
    (oracle : String → Nat → Option Response) (jitter : Nat → ℚ)
    (rl : Nat → Response)
    (hrl : ∀ i, oracle v i = some (rl i))
    (h429 : ∀ i, effectiveCode (rl i) = 429) :
    rate_limiter_passthru v oracle jitter =
      .ok ⟨none, (List.range 5).map (fun i => (2 : ℚ) ^ i + jitter i), 5⟩ := by
  rw [rate_limiter_passthru_valid v hv oracle jitter]
  rw [rateLoop_run429 (oracle v) jitter 5 5 0 (le_refl 5)
    (fun i _ => ⟨rl i, by simpa using hrl i, h429 i⟩)]
  simp [rateLoop]

/-- Witness for C2: a POST run rate limited on every attempt stops after
5 calls and 5 sleeps and returns `None`. -/
theorem claim_C2_witness :
    "post" ∈ valid_verbs ∧
    (∀ i, o429 "post" i = some ⟨some 429, 0⟩) ∧
    rate_limiter_passthru "post" o429 zeroJ =
      .ok ⟨none, (List.range 5).map (fun i => (2 : ℚ) ^ i + zeroJ i), 5⟩ :=
  ⟨by decide, fun i => rfl,
   claim_C2_retry_budget "post" (by decide) o429 zeroJ (fun _ => ⟨some 429, 0⟩)
     (fun i => rfl) (fun i => rfl)⟩

/-- Claim C3 (amended): if the effective status of the first transport
response is any code other than 200 and 429, the dispatcher returns the
failure value `None` immediately, with zero sleeps and no further
transport calls; the status code itself is not carried in the return
value (it is only printed in verbose mode). -/
theorem claim_C3_http_error_immediate (v : String) (hv : v ∈ valid_verbs)
    (oracle : String → Nat → Option Response) (jitter : Nat → ℚ)
    (r : Response) (ho : oracle v 0 = some r)
    (h429 : effectiveCode r ≠ 429) (h200 : effectiveCode r ≠ 200) :
    rate_limiter_passthru v oracle jitter = .ok ⟨none, [], 1⟩ := by
  rw [rate_limiter_passthru_valid v hv oracle jitter]
  exact congrArg Except.ok (rateLoop_other (oracle v) jitter 4 0 r ho h429 h200)

/-- Counterexample for C3 as stated: a first-attempt 404 run and a
first-attempt 500 run return the very same value, so the returned value
cannot carry the offending status code. -/
theorem claim_C3_counterexample :
    rate_limiter_passthru "get" o404 zeroJ =
      rate_limiter_passthru "get" o500 zeroJ ∧
    ¬ ∃ f : Except String RunTrace → Nat,
        f (rate_limiter_passthru "get" o404 zeroJ) = 404 ∧
        f (rate_limiter_passthru "get" o500 zeroJ) = 500 := by
  have h4 : rate_limiter_passthru "get" o404 zeroJ = .ok ⟨none, [], 1⟩ := by
    rw [rate_limiter_passthru_valid "get" (by decide) o404 zeroJ]
    exact congrArg Except.ok
      (rateLoop_other (o404 "get") zeroJ 4 0 ⟨some 404, 0⟩ rfl (by decide) (by decide))
  have h5 : rate_limiter_passthru "get" o500 zeroJ = .ok ⟨none, [], 1⟩ := by
    rw [rate_limiter_passthru_valid "get" (by decide) o500 zeroJ]
    exact congrArg Except.ok
      (rateLoop_other (o500 "get") zeroJ 4 0 ⟨some 500, 0⟩ rfl (by decide) (by decide))
  refine ⟨h4.trans h5.symm, ?_⟩
  rintro ⟨f, hf4, hf5⟩
  rw [h4] at hf4
  rw [h5] at hf5
  rw [hf4] at hf5
  exact absurd hf5 (by decide)

/-- Witness for C3 (amended): the 404 run returns `None` with zero
sleeps after a single transport call. -/
theorem claim_C3_witness :
    o404 "get" 0 = some ⟨some 404, 0⟩ ∧
    effectiveCode ⟨some 404, 0⟩ ≠ 429 ∧
    effectiveCode ⟨some 404, 0⟩ ≠ 200 ∧
    rate_limiter_passthru "get" o404 zeroJ = .ok ⟨none, [], 1⟩ :=
  ⟨rfl, by decide, by decide,
   claim_C3_http_error_immediate "get" (by decide) o404 zeroJ ⟨some 404, 0⟩
     rfl (by decide) (by decide)⟩

/-- Claim C4 (amended): the caller can distinguish success (the response
object) from both failure outcomes (`None`), but cannot distinguish the
two failure outcomes from each other: a run exhausting the 429 retry
budget and a run hitting a permanent non-200/non-429 status both return
the same bare `None`. -/
theorem claim_C4_outcome_distinction (v : String) (hv : v ∈ valid_verbs)
    (oS oE oH : String → Nat → Option Response) (jS jE jH : Nat → ℚ)
    (r : Response) (hoS : oS v 0 = some r) (h200 : effectiveCode r = 200)
    (rl : Nat → Response) (hoE : ∀ i, oE v i = some (rl i))
    (hE429 : ∀ i, effectiveCode (rl i) = 429)
    (e : Response) (hoH : oH v 0 = some e)
    (hH429 : effectiveCode e ≠ 429) (hH200 : effectiveCode e ≠ 200) :
    dispatch_return v oS jS = .ok (some r) ∧
    dispatch_return v oE jE = .ok none ∧
    dispatch_return v oH jH = .ok none ∧
    dispatch_return v oS jS ≠ dispatch_return v oE jE ∧
    dispatch_return v oS jS ≠ dispatch_return v oH jH ∧
    dispatch_return v oE jE = dispatch_return v oH jH := by
  have hS : rate_limiter_passthru v oS jS = .ok ⟨some r, [], 1⟩ := by
    rw [rate_limiter_passthru_valid v hv oS jS]
    exact congrArg Except.ok (rateLoop_200 (oS v) jS 4 0 r hoS h200)
  have hE : rate_limiter_passthru v oE jE =
      .ok ⟨none, (List.range 5).map (fun i => (2 : ℚ) ^ i + jE i), 5⟩ := by
    rw [rate_limiter_passthru_valid v hv oE jE]
    rw [rateLoop_run429 (oE v) jE 5 5 0 (le_refl 5)
      (fun i _ => ⟨rl i, by simpa using hoE i, hE429 i⟩)]
    simp [rateLoop]
  have hH : rate_limiter_passthru v oH jH = .ok ⟨none, [], 1⟩ := by
    rw [rate_limiter_passthru_valid v hv oH jH]
    exact congrArg Except.ok (rateLoop_other (oH v) jH 4 0 e hoH hH429 hH200)
  refine ⟨?_, ?_, ?_, ?_, ?_, ?_⟩ <;>
    simp [dispatch_return, hS, hE, hH, Except.map]

/-- Witness for C4 (amended): concrete success, retry-exhausted and
permanent-error runs; the latter two return the same value. -/
theorem claim_C4_witness :
    dispatch_return "get" o200 zeroJ = .ok (some ⟨some 200, 1⟩) ∧
    dispatch_return "get" o429 zeroJ = .ok none ∧
    dispatch_return "get" o404 zeroJ = .ok none ∧
    dispatch_return "get" o200 zeroJ ≠ dispatch_return "get" o429 zeroJ ∧
    dispatch_return "get" o200 zeroJ ≠ dispatch_return "get" o404 zeroJ ∧
    dispatch_return "get" o429 zeroJ = dispatch_return "get" o404 zeroJ :=
  claim_C4_outcome_distinction "get" (by decide) o200 o429 o404 zeroJ zeroJ zeroJ
    ⟨some 200, 1⟩ rfl rfl (fun _ => ⟨some 429, 0⟩) (fun i => rfl) (fun i => rfl)
    ⟨some 404, 0⟩ rfl (by decide) (by decide)

/-- Counterexample for C4 as stated: the retry-exhausted run (all 429,
five calls and five sleeps) and the permanent-failure run (404 on the
first call) end in different terminal outcomes, yet the values returned
to the caller are equal. -/
theorem claim_C4_counterexample :
    rate_limiter_passthru "get" o429 zeroJ =
      .ok ⟨none, (List.range 5).map (fun i => (2 : ℚ) ^ i + zeroJ i), 5⟩ ∧
    rate_limiter_passthru "get" o404 zeroJ = .ok ⟨none, [], 1⟩ ∧
    dispatch_return "get" o429 zeroJ = dispatch_return "get" o404 zeroJ := by
  have hE : rate_limiter_passthru "get" o429 zeroJ =
      .ok ⟨none, (List.range 5).map (fun i => (2 : ℚ) ^ i + zeroJ i), 5⟩ := by
    rw [rate_limiter_passthru_valid "get" (by decide) o429 zeroJ]
    rw [rateLoop_run429 (o429 "get") zeroJ 5 5 0 (le_refl 5)
      (fun i _ => ⟨⟨some 429, 0⟩, rfl, rfl⟩)]
    simp [rateLoop]
  have hH : rate_limiter_passthru "get" o404 zeroJ = .ok ⟨none, [], 1⟩ := by
    rw [rate_limiter_passthru_valid "get" (by decide) o404 zeroJ]
    exact congrArg Except.ok
      (rateLoop_other (o404 "get") zeroJ 4 0 ⟨some 404, 0⟩ rfl (by decide) (by decide))
  exact ⟨hE, hH, by simp [dispatch_return, hE, hH, Except.map]⟩

/-- Claim C5: a transport response without a status-code attribute gets
effective status 200; and for every accepted verb, an attempt whose
response has effective status 200 makes the dispatcher return that
response as success immediately, with zero additional sleeps and no
further transport calls. -/
theorem claim_C5_no_status_is_success :
    (∀ r : Response, r.status = none → effectiveCode r = 200) ∧
    (∀ (oracle : Nat → Option Response) (jitter : Nat → ℚ)
        (fuel a : Nat) (r : Response),
        oracle a = some r → effectiveCode r = 200 →
        rateLoop oracle jitter (fuel + 1) a = ⟨some r, [], 1⟩) ∧
    (∀ v ∈ valid_verbs, ∀ (oracle : String → Nat → Option Response)
        (jitter : Nat → ℚ) (r : Response),
        oracle v 0 = some r → effectiveCode r = 200 →
        rate_limiter_passthru v oracle jitter = .ok ⟨some r, [], 1⟩) := by
  refine ⟨?_, ?_, ?_⟩
  · intro r h
    simp [effectiveCode, h]
  · intro oracle jitter fuel a r ho h
    exact rateLoop_200 oracle jitter fuel a r ho h
  · intro v hv oracle jitter r ho h
    rw [rate_limiter_passthru_valid v hv oracle jitter]
    exact congrArg Except.ok (rateLoop_200 (oracle v) jitter 4 0 r ho h)

/-- Witness for C5: a status-less response is treated as a 200 and a PUT
run on it succeeds immediately. -/
theorem claim_C5_witness :
    (⟨none, 7⟩ : Response).status = none ∧
    effectiveCode ⟨none, 7⟩ = 200 ∧
    oNoStatus "put" 0 = some ⟨none, 7⟩ ∧
    rate_limiter_passthru "put" oNoStatus zeroJ = .ok ⟨some ⟨none, 7⟩, [], 1⟩ := by
  refine ⟨rfl, claim_C5_no_status_is_success.1 ⟨none, 7⟩ rfl, rfl, ?_⟩
  exact claim_C5_no_status_is_success.2.2 "put" (by decide) oNoStatus zeroJ
    ⟨none, 7⟩ rfl rfl

/-- Claim C6: every verb whose lowercased form is outside
`{get, delete, put, post}` makes the dispatcher raise
`ValueError` at once; the run is independent of the transport and
produces no trace, so no transport call, sleep or retry happens. -/
theorem claim_C6_invalid_verb (v : String) (hv : v.toLower ∉ valid_verbs)
    (oracle : String → Nat → Option Response) (jitter : Nat → ℚ) :
    rate_limiter_passthru v oracle jitter =
      .error (v.toLower ++ " is not a valid HTTP request type.") := by
  simp only [rate_limiter_passthru, if_neg hv]

/-- Witness for C6: dispatching with verb `'patch'` raises. -/
theorem claim_C6_witness :
    "patch".toLower ∉ valid_verbs ∧
    rate_limiter_passthru "patch" o200 zeroJ =
      .error ("patch".toLower ++ " is not a valid HTTP request type.") := by
  have hp : "patch".toLower ∉ valid_verbs := by
    simp only [String.toLower, String.map_eq]
    decide
  exact ⟨hp, claim_C6_invalid_verb "patch" hp o200 zeroJ⟩

/-- Claim C10: verb matching is case-insensitive: the dispatcher
lowercases the verb before validation and dispatch, so every verb string
behaves exactly like its lowercased form. -/
theorem claim_C10_case_insensitive (v : String)
    (oracle : String → Nat → Option Response) (jitter : Nat → ℚ) :
    rate_limiter_passthru v oracle jitter =
      rate_limiter_passthru v.toLower oracle jitter := by
  simp only [rate_limiter_passthru, string_toLower_idem]

/-- Claim C7: `ensure_list_of_dicts` returns a non-empty list whose
first element is a mapping unchanged, wraps a single mapping into a
one-element list, and fails with a `ValueError` on every other input,
including the empty list and non-mapping values such as `42`. -/
theorem claim_C7_ensure_list_of_dicts :
    (∀ (x : PyVal) (xs : List PyVal), isDict x = true →
        ensure_list_of_dicts (.list (x :: xs)) = .ok (.list (x :: xs))) ∧
    (∀ entries, ensure_list_of_dicts (.dict entries) =
        .ok (.list [.dict entries])) ∧
    (∀ v : PyVal, isDict v = false → headIsDict v = false →
        ensure_list_of_dicts v =
          .error "The variable is neither a dict nor a list containing dicts") := by
  refine ⟨?_, ?_, ?_⟩
  · intro x xs hx
    simp [ensure_list_of_dicts, hx]
  · intro entries
    rfl
  · intro v hd hh
    cases v with
    | list l =>
      cases l with
      | nil => rfl
      | cons x xs =>
        have hx : isDict x = false := by simpa [headIsDict] using hh
        simp [ensure_list_of_dicts, hx, elodExceptArm]
    | dict entries => simp [isDict] at hd
    | pyNone => rfl
    | int n => rfl
    | str s => rfl
    | boolean b => rfl

/-- Witness for C7: the four inputs named by the spec. -/
theorem claim_C7_witness :
    isDict (.dict [("id", .int 1)]) = true ∧
    ensure_list_of_dicts (.list [.dict [("id", .int 1)], .dict [("id", .int 2)]]) =
      .ok (.list [.dict [("id", .int 1)], .dict [("id", .int 2)]]) ∧
    ensure_list_of_dicts (.dict [("id", .int 1)]) =
      .ok (.list [.dict [("id", .int 1)]]) ∧
    ensure_list_of_dicts (.list []) =
      .error "The variable is neither a dict nor a list containing dicts" ∧
    ensure_list_of_dicts (.int 42) =
      .error "The variable is neither a dict nor a list containing dicts" := by
  refine ⟨rfl, ?_, ?_, ?_, ?_⟩
  · exact claim_C7_ensure_list_of_dicts.1 (.dict [("id", .int 1)])
      [.dict [("id", .int 2)]] rfl
  · exact claim_C7_ensure_list_of_dicts.2.1 [("id", .int 1)]
  · exact claim_C7_ensure_list_of_dicts.2.2 (.list []) rfl rfl
  · exact claim_C7_ensure_list_of_dicts.2.2 (.int 42) rfl rfl

/-- Claim C8: on an HTTP-success response, `ss_get` with
`return_all = false` returns the JSON body coerced by
`ensure_list_of_dicts` and with `return_all = true` the full response
object; `ss_post` and `ss_put` with `return_all = false` return only the
`data` field of the JSON body and with `return_all = true` the full
body. -/
theorem claim_C8_return_all (resp : HttpResponse)
    (hs : raiseForStatus resp.status = false) :
    ss_get resp false = (ensure_list_of_dicts resp.body).map SsRet.json ∧
    ss_get resp true = .ok (.obj resp) ∧
    (∀ entries, resp.body = .dict entries →
        ss_post resp false = .ok (.json (dict_get entries "data")) ∧
        ss_put resp false = .ok (.json (dict_get entries "data"))) ∧
    ss_post resp true = .ok (.json resp.body) ∧
    ss_put resp true = .ok (.json resp.body) := by
  refine ⟨by simp [ss_get, hs], by simp [ss_get, hs], ?_,
    by simp [ss_post, hs], by simp [ss_put, hs]⟩
  intro entries he
  constructor <;> simp [ss_post, ss_put, hs, he]

/-- Witness for C8: a 200 response with body `{"data": [{"id": 10}]}`
through all four success paths. -/
theorem claim_C8_witness :
    raiseForStatus w8resp.status = false ∧
    ss_get w8resp false = (ensure_list_of_dicts w8resp.body).map SsRet.json ∧
    ss_get w8resp true = .ok (.obj w8resp) ∧
    ss_post w8resp false =
      .ok (.json (dict_get [("data", .list [.dict [("id", .int 10)]])] "data")) ∧
    ss_put w8resp false =
      .ok (.json (dict_get [("data", .list [.dict [("id", .int 10)]])] "data")) ∧
    ss_post w8resp true = .ok (.json w8resp.body) ∧
    ss_put w8resp true = .ok (.json w8resp.body) := by
  refine ⟨by decide, (claim_C8_return_all w8resp (by decide)).1,
    (claim_C8_return_all w8resp (by decide)).2.1, ?_, ?_,
    (claim_C8_return_all w8resp (by decide)).2.2.2.1,
    (claim_C8_return_all w8resp (by decide)).2.2.2.2⟩
  · exact ((claim_C8_return_all w8resp (by decide)).2.2.1
      [("data", .list [.dict [("id", .int 10)]])] rfl).1
  · exact ((claim_C8_return_all w8resp (by decide)).2.2.1
      [("data", .list [.dict [("id", .int 10)]])] rfl).2

/-- Claim C9: each upload primitive fails with a `FileNotFoundError`
carrying the path when the local file does not exist, performing zero
network calls (the result is the same for every possible network
response). -/
theorem claim_C9_missing_file (fileExists : String → Bool) (filepath : String)
    (h : fileExists filepath = false) (netResp : HttpResponse) :
    ss_post_upload fileExists filepath netResp =
      (.error ("File not found: " ++ filepath), 0) ∧
    ss_put_upload fileExists filepath netResp =
      (.error ("File not found: " ++ filepath), 0) := by
  constructor <;> simp [ss_post_upload, ss_put_upload, h]

/-- Witness for C9: uploading from a path that exists on no filesystem
raises before any network call. -/
theorem claim_C9_witness :
    emptyFs "/tmp/report.pdf" = false ∧
    ss_post_upload emptyFs "/tmp/report.pdf" w8resp =
      (.error ("File not found: " ++ "/tmp/report.pdf"), 0) ∧
    ss_put_upload emptyFs "/tmp/report.pdf" w8resp =
      (.error ("File not found: " ++ "/tmp/report.pdf"), 0) :=
  ⟨rfl, (claim_C9_missing_file emptyFs "/tmp/report.pdf" rfl w8resp).1,
   (claim_C9_missing_file emptyFs "/tmp/report.pdf" rfl w8resp).2⟩

end SmartsheetAPI
